import Mathlib

/-!
Shallow embedding of the topik pipeline state manager and artifact store,
translated from the Python sources:

  * src/topik/fileio/out_memory.py   (GreedyDict, InMemoryOutput)
  * src/topik/fileio/project.py      (_get_parameters_string, TopikProject)
  * src/topik/vectorizers/_registry.py (VectorizerRegistry, vectorize)

Python machine model used throughout:

  * Python dicts are modelled as insertion-ordered association lists; item
    assignment replaces the value in place when the key exists and appends
    otherwise; iteration follows that order (CPython 3.7+ / ordered-dict
    semantics).
  * Fallible operations return `Except PyError`; `PyError` mirrors the
    exception classes the translated code can raise.
  * Attribute access on an object whose class does not define the named
    attribute raises AttributeError.  Where the code accesses attributes by
    names that the embedded classes do not define, the embedding returns
    that AttributeError; the attribute tables of each class are spelled out
    in comments next to the relevant definitions so they can be checked
    against the source line by line.
  * `topik.fileio.base_output.OutputInterface` (the base class of
    InMemoryOutput) and `topik.singleton_registry._base_register_decorator`
    are not part of the sources; they are modelled from the spec where
    needed, and each such definition carries a doc comment saying so.
-/

/-- Value of a document field: the sources only ever test and convert
integers and strings (`int(...)` in out_memory.py, string content fields). -/
inductive Value where
  | int : Int → Value
  | str : String → Value
deriving DecidableEq

/-- A raw imported item (what the reader yields and what
`import_from_iterable` hashes): a mapping field-name → value.
Corpus entries are stored wrapped as a dict with the single key _source
(out_memory.py line 47); the wrapper is constant, so corpus entries are
represented by the wrapped item itself, and every place the source writes
`doc["_source"]` the embedding reads the item directly (noted at each
use site). -/
abbrev Doc := List (String × Value)

/-- Python exceptions raised by the translated code. -/
inductive PyError where
  | attributeError : String → String → PyError
  | keyError : String → PyError
  | valueError : String → PyError
  | typeError : String → PyError
deriving DecidableEq

/-- Dict item assignment `d[k] = v`: replace in place if `k` is present
(keeping its position, as CPython does), else append. -/
def assocSet {κ α : Type} [DecidableEq κ] : List (κ × α) → κ → α → List (κ × α)
  | [], k, v => [(k, v)]
  | (k₀, v₀) :: rest, k, v =>
    if k₀ = k then (k, v) :: rest else (k₀, v₀) :: assocSet rest k v

/-- Dict item lookup `d[k]` (first, i.e. unique, occurrence). -/
def assocLookup {κ α : Type} [DecidableEq κ] : List (κ × α) → κ → Option α
  | [], _ => none
  | (k₀, v) :: rest, k => if k₀ = k then some v else assocLookup rest k

/-- A Python sequence value as stored in a GreedyDict: either a list
(materialized, re-iterable), a generator (one-shot, and an instance of
`types.GeneratorType`), or some other one-shot iterator (e.g. the result of
`iter`, `map` or `filter` — exhausted by one pass but NOT an instance of
`types.GeneratorType`). -/
inductive PySeq (α : Type) where
  | list : List α → PySeq α
  | generator : List α → PySeq α
  | listIterator : List α → PySeq α
deriving DecidableEq

/-- The `isinstance(value, types.GeneratorType)` test of
out_memory.py line 12. -/
def PySeq.isGeneratorType {α : Type} : PySeq α → Bool
  | .generator _ => true
  | _ => false

/-- True for the sequence forms that are exhausted by a single iteration. -/
def PySeq.isOneShot {α : Type} : PySeq α → Bool
  | .list _ => false
  | _ => true

/-- Iterating a sequence once: the values produced and the state the
object is left in (a list can be iterated again; a one-shot object is
exhausted). -/
def PySeq.readOnce {α : Type} : PySeq α → List α × PySeq α
  | .list xs => (xs, .list xs)
  | .generator xs => (xs, .generator [])
  | .listIterator xs => (xs, .listIterator [])

/-- Reading the same stored object twice in a row: the two value lists
obtained. -/
def PySeq.readTwice {α : Type} (v : PySeq α) : List α × List α :=
  (v.readOnce.1, v.readOnce.2.readOnce.1)

/-- GreedyDict.__setitem__ (out_memory.py lines 6-17): if the value is an
instance of `types.GeneratorType` it is materialized into a list
(`value = [val for val in value]`) before `dict.__setitem__` stores it;
any other value — including other one-shot iterators — is stored as-is.
(The print statements on lines 8-10 have no effect on the store and are
not modelled.) -/
def GreedyDict.setitem {α : Type} (d : List (String × PySeq α)) (k : String)
    (v : PySeq α) : List (String × PySeq α) :=
  assocSet d k (match v with
    | .generator xs => .list xs
    | other => other)

/-- Artifact stored in a stage table: a sequence of values. -/
abbrev Artifact := PySeq Value

/-- One stage table (a GreedyDict keyed by fingerprint strings). -/
abbrev ArtifactTable := List (String × Artifact)

/-- The corpus attribute of an InMemoryOutput.  `__init__` sets it to a
GreedyDict (out_memory.py line 26), keyed by the hash of the hash field,
values being items wrapped in a dict with single key _source (wrapper
elided, see `Doc`). `TopikProject.read_input` (project.py lines 39-41)
REBINDS the attribute to whatever the reader collaborator returned — a raw
iterable of pairs, not a dict — so the attribute can also hold that raw
value. -/
inductive CorpusVal where
  | gdict : List (Int × Doc) → CorpusVal
  | rawReader : List (String × Doc) → CorpusVal
deriving DecidableEq

/-- Whether the corpus attribute currently holds a mapping (a GreedyDict)
rather than a raw reader iterable. -/
def CorpusVal.isMapping : CorpusVal → Bool
  | .gdict _ => true
  | .rawReader _ => false

/-- InMemoryOutput (out_memory.py lines 19-73).  Its instance attributes,
each one assigned in `__init__` or in `import_from_iterable`, are exactly:
`corpus`, `hash_field` (only set once an import happened; `none` models
the attribute not existing yet), `tokenized_corpora`, `vectorized_corpora`,
`modeled_corpora`.  The base class OutputInterface
(src/topik/fileio/base_output.py) is not among the sources; it is
modelled from the spec (section 4.1 ArtifactStore and section 6 persisted
layout), which gives the store no further data attributes and in
particular no `token_data`, `tokenized_data`, `vectorized_data` or
`model_data` attribute. -/
structure InMemoryOutput where
  corpus : CorpusVal
  hash_field : Option String
  tokenized_corpora : ArtifactTable
  vectorized_corpora : ArtifactTable
  modeled_corpora : ArtifactTable
deriving DecidableEq

/-- A fresh InMemoryOutput(), constructed with no iterable: empty corpus
GreedyDict, no hash_field yet, three empty stage GreedyDicts. -/
def InMemoryOutput.new : InMemoryOutput :=
  { corpus := .gdict []
    hash_field := none
    tokenized_corpora := []
    vectorized_corpora := []
    modeled_corpora := [] }

/-- Reading a stage-table attribute of an InMemoryOutput by name, as
Python attribute lookup does.  The only table-valued attributes defined on
the class or its instances are `tokenized_corpora`, `vectorized_corpora`
and `modeled_corpora` (see `InMemoryOutput`); any other name raises
AttributeError. -/
def InMemoryOutput.getattrTable (o : InMemoryOutput) (attr : String) :
    Except PyError ArtifactTable :=
  if attr = "tokenized_corpora" then .ok o.tokenized_corpora
  else if attr = "vectorized_corpora" then .ok o.vectorized_corpora
  else if attr = "modeled_corpora" then .ok o.modeled_corpora
  else .error (.attributeError "InMemoryOutput" attr)

/-- Item assignment `self.output.<attr>[k] = v` through a named attribute:
looks the attribute up (AttributeError if the name is not defined, as in
`InMemoryOutput.getattrTable`) and then performs the GreedyDict item
assignment on it. -/
def InMemoryOutput.setTableItem (o : InMemoryOutput) (attr k : String)
    (v : Artifact) : Except PyError InMemoryOutput :=
  if attr = "tokenized_corpora" then
    .ok { o with tokenized_corpora := GreedyDict.setitem o.tokenized_corpora k v }
  else if attr = "vectorized_corpora" then
    .ok { o with vectorized_corpora := GreedyDict.setitem o.vectorized_corpora k v }
  else if attr = "modeled_corpora" then
    .ok { o with modeled_corpora := GreedyDict.setitem o.modeled_corpora k v }
  else .error (.attributeError "InMemoryOutput" attr)

/-- One element of the iterable handed to `import_from_iterable`: either a
plain string (the `isinstance(item, basestring)` branch of out_memory.py
line 44; the code targets Python 2 where `basestring` exists) or a dict. -/
inductive ImportItem where
  | strItem : String → ImportItem
  | dictItem : Doc → ImportItem
deriving DecidableEq

/-- Python hash() of a field value, used to key the corpus
(out_memory.py line 46).  hash of a small int is the int itself; the hash
of a string is modelled by a concrete deterministic fold — no claim
depends on the particular values, only on hashing being a function of the
field value. -/
def pyHash : Value → Int
  | .int n => n
  | .str s => s.data.foldl (fun a c => a * 31 + Int.ofNat c.toNat) 7

/-- The loop body of import_from_iterable (out_memory.py lines 43-47):
for each item, strings are wrapped into a one-field dict, the id is the
hash of the hash field (KeyError when the field is absent from an item),
and the corpus GreedyDict is updated at that id.  (The values stored are
dicts, never generators, so the GreedyDict materialization step is a
no-op here and plain item assignment is used.) -/
def importLoop (field : String) : List (Int × Doc) → List ImportItem →
    Except PyError (List (Int × Doc))
  | corpus, [] => .ok corpus
  | corpus, item :: rest =>
    match (match item with
           | .strItem s => ([(field, Value.str s)] : Doc)
           | .dictItem d => d) with
    | d =>
      match assocLookup d field with
      | none => .error (.keyError field)
      | some v => importLoop field (assocSet corpus (pyHash v) d) rest

/-- import_from_iterable (out_memory.py lines 35-49): requires a truthy
field_to_hash (`none` models passing None; the empty string is also falsy),
else ValueError; sets `self.hash_field` and inserts every item keyed by
the hash of its hash-field value.  If the corpus attribute holds a raw
reader iterable instead of a dict, item assignment on it fails with
TypeError. -/
def InMemoryOutput.import_from_iterable (o : InMemoryOutput)
    (iterable : List ImportItem) (field_to_hash : Option String) :
    Except PyError InMemoryOutput :=
  match field_to_hash with
  | none => .error (.valueError "A field_to_hash is required for import_from_iterable")
  | some f =>
    if f = "" then
      .error (.valueError "A field_to_hash is required for import_from_iterable")
    else
      match o.corpus with
      | .rawReader _ => .error (.typeError "object does not support item assignment")
      | .gdict c =>
        match importLoop f c iterable with
        | .error e => .error e
        | .ok c2 => .ok { o with corpus := .gdict c2, hash_field := some f }

/-- A single-character string holding an apostrophe (used when rendering
Python source strings). -/
def pyQuote : String := String.mk ['\x27']

/-- The filter argument of get_filtered_data, represented by the only two
shapes of string the repository itself passes: the empty-string default
(out_memory.py line 58) and the date-range expression built by
get_date_filtered_data (lines 54-56).  `render` below gives the literal
Python string each shape stands for. -/
inductive PyFilter where
  | empty : PyFilter
  | dateRange : Int → String → Int → PyFilter
deriving DecidableEq

/-- The literal filter string a `PyFilter` stands for.  For
`dateRange start field stop` this is the string built on out_memory.py
lines 55-56: str(start), then "<=int(", then the unfilled placeholder
braces, then "[" quote "_source" quote "][" quote, the field, then
quote "])<=", then str(stop). -/
def PyFilter.render : PyFilter → String
  | .empty => ""
  | .dateRange s f e =>
      toString s ++ "<=int(\x7b\x7d[" ++ pyQuote ++ "_source" ++ pyQuote ++ "][" ++ pyQuote
        ++ f ++ pyQuote ++ "])<=" ++ toString e

/-- Python truthiness of the filter string (`if not filter:` on
out_memory.py line 59): only the empty string is falsy.  The theorem
`PyFilter_truthy_faithful` below checks this against `render`. -/
def PyFilter.truthy : PyFilter → Bool
  | .empty => false
  | .dateRange _ _ _ => true

/-- Python `int(value)`: identity on ints; on strings, numeric parse or
ValueError. -/
def pyInt : Value → Except PyError Int
  | .int n => .ok n
  | .str s =>
    match s.toInt? with
    | some n => .ok n
    | none => .error (.valueError "invalid literal for int() with base 10")

/-- The predicate the rendered date-range string evaluates to on one
corpus entry: Python evaluates
start <= int(doc[_source][field]) <= stop after substituting the repr of
the entry for the placeholder (out_memory.py line 64); on an entry whose
repr evaluates back to itself this chained comparison looks the field up
in the item (KeyError when absent), converts with int() and compares. -/
def datePred (s : Int) (filterField : String) (e : Int) (d : Doc) :
    Except PyError Bool :=
  match assocLookup d filterField with
  | none => .error (.keyError filterField)
  | some v =>
    match pyInt v with
    | .error err => .error err
    | .ok n => .ok (decide (s ≤ n ∧ n ≤ e))

/-- The generator loop shared by both branches of get_filtered_data
(out_memory.py lines 59-65): walk the corpus in order; for each entry
evaluate the predicate (raising whatever it raises), and if it holds,
yield the pair of the id and the item's field_to_get value (KeyError when
the field is absent).  The list returned is the full sequence of yielded
pairs. -/
def getFilteredList (field : String) (pred : Doc → Except PyError Bool) :
    List (Int × Doc) → Except PyError (List (Int × Value))
  | [] => .ok []
  | (i, d) :: rest =>
    match pred d with
    | .error e => .error e
    | .ok b =>
      if b then
        match assocLookup d field with
        | none => .error (.keyError field)
        | some v =>
          match getFilteredList field pred rest with
          | .error e => .error e
          | .ok out => .ok ((i, v) :: out)
      else getFilteredList field pred rest

/-- get_filtered_data (out_memory.py lines 58-65).  Iterates
self.corpus.items() — AttributeError if the corpus attribute was rebound
to a raw reader iterable (lists have no `items`).  With a falsy filter
(the empty default) every entry is yielded; otherwise the entry passes
when the filter expression, with the entry substituted, evaluates true
(`datePred` for the date-range filter shape).  Each call builds a fresh
generator over the whole corpus; the returned list is that generator run
to completion. -/
def InMemoryOutput.get_filtered_data (o : InMemoryOutput) (field : String)
    (filter : PyFilter) : Except PyError (List (Int × Value)) :=
  match o.corpus with
  | .rawReader _ => .error (.attributeError "list" "items")
  | .gdict c =>
    match filter with
    | .empty => getFilteredList field (fun _ => .ok true) c
    | .dateRange s ff e => getFilteredList field (datePred s ff e) c

/-- get_date_filtered_data (out_memory.py lines 53-56): delegates to
get_filtered_data with the date-range filter string over the default
filter_field "year". -/
def InMemoryOutput.get_date_filtered_data (o : InMemoryOutput)
    (field_to_get : String) (start stop : Int) :
    Except PyError (List (Int × Value)) :=
  o.get_filtered_data field_to_get (.dateRange start "year" stop)

/-- Python str.format with positional placeholder pairs of braces: every
brace pair in the template is replaced by the inserted string.  (Faithful
for templates whose only braces are placeholder pairs, which is the only
way the sources use format on filter strings.) -/
def fmtAux (ins : List Char) : List Char → List Char
  | [] => []
  | [c] => [c]
  | c₁ :: c₂ :: rest =>
    if c₁ = '\x7b' ∧ c₂ = '\x7d' then ins ++ fmtAux ins rest
    else c₁ :: fmtAux ins (c₂ :: rest)
termination_by l => l.length
decreasing_by
  all_goals simp
  omega

/-- String-level wrapper of `fmtAux`: `template.format(inserted)`. -/
def pyFormat (template ins : String) : String :=
  String.mk (fmtAux ins.data template.data)

/-- Python repr of a field value (numbers bare, strings quoted; string
escaping is not needed for the values the claims touch). -/
def pyReprValue : Value → String
  | .int n => toString n
  | .str s => pyQuote ++ s ++ pyQuote

/-- Python repr of an item dict. -/
def pyReprDict (d : Doc) : String :=
  "\x7b" ++ String.intercalate ", "
    (d.map fun p => pyQuote ++ p.1 ++ pyQuote ++ ": " ++ pyReprValue p.2) ++ "\x7d"

/-- Python repr of a stored corpus entry, i.e. of the wrapper dict with
single key _source holding the item. -/
def pyReprEntry (d : Doc) : String :=
  "\x7b" ++ pyQuote ++ "_source" ++ pyQuote ++ ": " ++ pyReprDict d ++ "\x7d"

/-- The strings that get_filtered_data hands to dynamic evaluation when
called with an arbitrary caller-supplied filter string and the generator
is run to completion (out_memory.py line 64: for each corpus entry the
filter string, formatted with the repr of the entry, is passed to eval).
With a falsy (empty) filter the eval branch is never taken. -/
def get_filtered_data_eval_calls (filter : String) (c : List (Int × Doc)) :
    List String :=
  if filter = "" then []
  else c.map fun p => pyFormat filter (pyReprEntry p.2)

/-- No character of the string is a brace (so str.format returns it
unchanged). -/
def noBraces (s : String) : Bool :=
  s.data.all fun c => !(c == '\x7b') && !(c == '\x7d')

/-- Type of a registered vectorizer function; the claims only need that
dispatch applies the very function that was registered, so the data it
maps over is abstracted to a number. -/
abbrev VecFn := Nat → Nat

/-- VectorizerRegistry (vectorizers/_registry.py lines 8-15): a subclass
of dict whose `__init__` assigns `self.__dict__ = __shared_state` (the
Borg pattern).  In CPython, assigning `__dict__` aliases only the
ATTRIBUTE namespace of the instance; the mapping items of a dict subclass
live in the per-instance dict storage, which this assignment does not
touch, and `dict.__init__` with no arguments adds no items.  The class
body writes no attributes through `__dict__` and all lookups
(`registry[name]`) and updates (`registry[name] = fn`) go through dict
item storage, so the shared attribute namespace carries no data at all
and each instance carries its own `items`. -/
structure VectorizerRegistry where
  items : List (String × VecFn)

/-- Constructing `VectorizerRegistry()`: per-instance item storage starts
empty (see `VectorizerRegistry` for why the Borg `__dict__` sharing does
not pre-populate it). -/
def VectorizerRegistry.new : VectorizerRegistry := ⟨[]⟩

/-- The module-level handle `registered_vectorizers = VectorizerRegistry()`
(vectorizers/_registry.py line 18), the instance that registration
targets. -/
def registered_vectorizers : VectorizerRegistry := VectorizerRegistry.new

/-- Modelled from the spec: `_base_register_decorator` lives in
topik/singleton_registry.py, which is not among the sources.  Per the
spec (section 4.2), register(name, function) adds an entry to the given
registry's table; the partial application on _registry.py line 21 fixes
the registry argument to `registered_vectorizers`. -/
def _base_register_decorator (r : VectorizerRegistry) (name : String)
    (f : VecFn) : VectorizerRegistry :=
  ⟨assocSet r.items name f⟩

/-- vectorize (vectorizers/_registry.py lines 24-30): dispatches with
`VectorizerRegistry()[method](corpus, **kwargs)` — the lookup happens on
a FRESH VectorizerRegistry instance constructed at call time, not on
`registered_vectorizers`; a missing method key raises KeyError. -/
def vectorize (corpus : Nat) (method : String) : Except PyError Nat :=
  match assocLookup VectorizerRegistry.new.items method with
  | some f => .ok (f corpus)
  | none => .error (.keyError method)

/-- A sample vectorizer function used to exercise registration. -/
def sampleVectorizer : VecFn := fun n => n + 1

/-- A keyword argument pair as it reaches _get_parameters_string: the key
is the parameter name, the value the str() rendering Python's format call
applies to it. -/
abbrev KV := String × String

/-- Lexicographic strict comparison of two Python strings as lists of
characters (code-point order), the order `sorted` uses on the keys. -/
def charListLt : List Char → List Char → Bool
  | _, [] => false
  | [], _ :: _ => true
  | a :: as, b :: bs =>
    if a < b then true
    else if b < a then false
    else charListLt as bs

/-- Python tuple comparison of two (key, str(value)) pairs, as used by
`sorted(kwargs.items())` (project.py line 7): keys first, values break
ties. -/
def pairLt (p q : KV) : Bool :=
  charListLt p.1.data q.1.data
    || (p.1.data == q.1.data && charListLt p.2.data q.2.data)

/-- The non-strict order induced by `pairLt` (sorted produces a sequence
that is non-descending in this order). -/
def pairLe (p q : KV) : Bool := !(pairLt q p)

/-- The sort relation as a Prop, for use with List.insertionSort. -/
def pyLeR (p q : KV) : Prop := pairLe p q = true

instance : DecidableRel pyLeR :=
  fun p q => inferInstanceAs (Decidable (pairLe p q = true))

/-- Python `sorted(kwargs.items())`: a stable sort of the item pairs in
tuple order.  Modelled by insertion sort, which agrees with any correct
sort of the same pairs (the order is total and, on the pairs themselves,
antisymmetric). -/
def pySorted (l : List KV) : List KV := List.insertionSort pyLeR l

/-- The characters contributed to the id string by one sorted item:
key, then an equals sign, then the value, then an underscore
(`"..=.._".format(key, val)` on project.py line 7). -/
def encPairChars (p : KV) : List Char :=
  p.1.data ++ '=' :: (p.2.data ++ ['_'])

/-- The concatenation `''.join(...)` over the sorted items. -/
def encodeChars (l : List KV) : List Char :=
  (l.map encPairChars).flatten

/-- _get_parameters_string (project.py lines 5-8): join the
key=value_ pieces over the items sorted by `sorted`, then drop the final
character (`id[:-1]`, which on the empty string stays empty). -/
def _get_parameters_string (l : List KV) : String :=
  String.mk ((encodeChars (pySorted l)).dropLast)

/-- A character that can appear in a key or value without colliding with
the two delimiter characters of the fingerprint encoding. -/
def cleanChar (c : Char) : Bool := !(c == '=') && !(c == '_')

/-- Keys and values of the pair avoid both delimiter characters. -/
def cleanKV (p : KV) : Bool :=
  p.1.data.all cleanChar && p.2.data.all cleanChar

/-- The tokenize fingerprint `"tk_..._..."` of project.py lines 52-54:
"tk_", the method, an underscore, then the parameter string. -/
def tokenizeFingerprint (method params : String) : String :=
  "tk_" ++ method ++ "_" ++ params

/-- The transform fingerprint of project.py lines 62-63:
`"_".join([prior, "xform", method, params])`. -/
def transformFingerprintJoin (prior method params : String) : String :=
  String.intercalate "_" [prior, "xform", method, params]

/-- TopikProject (project.py lines 11-147).  Attributes assigned in
`__init__` (lines 24-28): `output`, `corpus_filter`, `_tokenizer_id`,
`_vectorizer_id`, `_model_id`.  The select methods (lines 94-110) assign
`selected_tokenizer` / `selected_vectorizer` / `selected_model` when they
succeed; those attributes do not exist before that (`none` models the
attribute being absent).  The class additionally defines the methods and
the four properties `filtered_corpus`, `tokenized_data`,
`vectorized_data`, `model_output` — and nothing else: in particular no
attribute or property named `tokenizer_ids` (read on line 95) and no
attribute named `tokenizer_id` (read on line 62) exists anywhere on the
class, so those reads raise AttributeError. -/
structure TopikProject where
  output : InMemoryOutput
  corpus_filter : Option String
  _tokenizer_id : Option String
  _vectorizer_id : Option String
  _model_id : Option String
  selected_tokenizer : Option String
  selected_vectorizer : Option String
  selected_model : Option String

/-- A TopikProject as `__init__` leaves it, over a given output store. -/
def TopikProject.new (o : InMemoryOutput) : TopikProject :=
  { output := o
    corpus_filter := none
    _tokenizer_id := none
    _vectorizer_id := none
    _model_id := none
    selected_tokenizer := none
    selected_vectorizer := none
    selected_model := none }

/-- read_input (project.py lines 39-41): calls the external reader
collaborator (fileio readers are not among the sources; per the spec,
section 6, the reader returns an iterable of id-seed/document pairs,
passed in here as `readerOutput`) and assigns the result DIRECTLY to the
`corpus` attribute of the output — plain attribute rebinding, with no
call to `import_from_iterable`, no hashing, and no dict construction. -/
def TopikProject.read_input (p : TopikProject)
    (readerOutput : List (String × Doc)) : TopikProject :=
  { p with output := { p.output with corpus := .rawReader readerOutput } }

/-- tokenize (project.py lines 48-58): computes the tokenized data by
dispatching to the tokenizers collaborator (module not among the sources;
its lazy generator result is passed in as `tokenized_data` and is not
consumed before the step below), builds the `tk_` fingerprint, then
executes `self.output.token_data[fingerprint] = tokenized_data` (line
56).  `token_data` is not an attribute of InMemoryOutput (see
`InMemoryOutput`), so that item assignment raises AttributeError before
anything is stored and before `_tokenizer_id` is updated (line 58 is
never reached). -/
def TopikProject.tokenize (p : TopikProject) (method params : String)
    (tokenized_data : Artifact) : Except PyError TopikProject :=
  match p.output.setTableItem "token_data"
      (tokenizeFingerprint method params) tokenized_data with
  | .error e => .error e
  | .ok o2 =>
    .ok { p with output := o2
                 _tokenizer_id := some (tokenizeFingerprint method params) }

/-- transform (project.py lines 60-67): first calls
`transformers.transform(method=method, **kwargs)` (collaborator module
not among the sources; its result is passed in as `transformed_data` and,
charitably, the call is taken to return rather than fail even though no
data argument is passed to it), then evaluates
`"_".join([self.tokenizer_id, "xform", method, params])` (line 62).
TopikProject defines no attribute `tokenizer_id` — the pointer field is
`_tokenizer_id` (see `TopikProject`) — so this read raises
AttributeError: nothing is stored and no pointer moves. -/
def TopikProject.transform (_p : TopikProject) (_method _params : String)
    (_transformed_data : Artifact) : Except PyError TopikProject :=
  .error (.attributeError "TopikProject" "tokenizer_id")

/-- select_tokenized_data (project.py lines 94-98): evaluates
`id in self.tokenizer_ids`.  TopikProject defines no attribute or
property named `tokenizer_ids` (see `TopikProject`), so the containment
test raises AttributeError before any branch runs; neither
`selected_tokenizer` nor any pointer changes. -/
def TopikProject.select_tokenized_data (_p : TopikProject) (_id : String) :
    Except PyError TopikProject :=
  .error (.attributeError "TopikProject" "tokenizer_ids")

/-- select_vectorized_data (project.py lines 100-104): evaluates
`id in self.output.vectorized_data`; the attribute lookup of
`vectorized_data` on the output goes through
`InMemoryOutput.getattrTable` (no such attribute → AttributeError).  Had
the table been reachable, a present id would set `selected_vectorizer`
(NOT the `_vectorizer_id` pointer that the `vectorized_data` property
reads) and an absent id would raise ValueError. -/
def TopikProject.select_vectorized_data (p : TopikProject) (id : String) :
    Except PyError TopikProject :=
  match p.output.getattrTable "vectorized_data" with
  | .error e => .error e
  | .ok t =>
    if (assocLookup t id).isSome then
      .ok { p with selected_vectorizer := some id }
    else
      .error (.valueError ("vectorized data " ++ id ++ " not found in storage."))

/-- select_model_data (project.py lines 106-110): same shape as
select_vectorized_data over `self.output.model_data` and
`selected_model`. -/
def TopikProject.select_model_data (p : TopikProject) (id : String) :
    Except PyError TopikProject :=
  match p.output.getattrTable "model_data" with
  | .error e => .error e
  | .ok t =>
    if (assocLookup t id).isSome then
      .ok { p with selected_model := some id }
    else
      .error (.valueError ("model " ++ id ++ " not found in storage."))

/-- The tokenized_data property (project.py lines 121-128): reads
`self.output.tokenized_data[self._tokenizer_id]`.  The attribute lookup
of `tokenized_data` on the output raises AttributeError (see
`InMemoryOutput.getattrTable`); were a table reachable, an unset pointer
(None) or an absent fingerprint would raise KeyError. -/
def TopikProject.tokenized_data (p : TopikProject) : Except PyError Artifact :=
  match p.output.getattrTable "tokenized_data" with
  | .error e => .error e
  | .ok t =>
    match p._tokenizer_id with
    | none => .error (.keyError "None")
    | some i =>
      match assocLookup t i with
      | some a => .ok a
      | none => .error (.keyError i)

/-- The vectorized_data property (project.py lines 130-138): reads
`self.output.vectorized_data[self._vectorizer_id]`; same attribute
failure shape as `TopikProject.tokenized_data`. -/
def TopikProject.vectorized_data (p : TopikProject) : Except PyError Artifact :=
  match p.output.getattrTable "vectorized_data" with
  | .error e => .error e
  | .ok t =>
    match p._vectorizer_id with
    | none => .error (.keyError "None")
    | some i =>
      match assocLookup t i with
      | some a => .ok a
      | none => .error (.keyError i)

/-- The model_output property (project.py lines 140-147): reads
`self.output.model_data[self._model_id]`; same attribute failure shape as
`TopikProject.tokenized_data`. -/
def TopikProject.model_output (p : TopikProject) : Except PyError Artifact :=
  match p.output.getattrTable "model_data" with
  | .error e => .error e
  | .ok t =>
    match p._model_id with
    | none => .error (.keyError "None")
    | some i =>
      match assocLookup t i with
      | some a => .ok a
      | none => .error (.keyError i)

/-- An InMemoryOutput holding a given corpus GreedyDict (the state after
documents were imported properly). -/
def mkMemOutput (c : List (Int × Doc)) : InMemoryOutput :=
  { InMemoryOutput.new with corpus := .gdict c }

/-- Whether the item carries an integer in its year field. -/
def isIntYear (d : Doc) : Bool :=
  match assocLookup d "year" with
  | some (Value.int _) => true
  | _ => false

/-- The integer carried in the year field (0 when `isIntYear` is false;
only read under that guard). -/
def yearOf (d : Doc) : Int :=
  match assocLookup d "year" with
  | some (Value.int n) => n
  | _ => 0

/-- The documents a date-range filter keeps. -/
def datePassB (s e : Int) (d : Doc) : Bool :=
  decide (s ≤ yearOf d ∧ yearOf d ≤ e)

/-- The field value yielded for a document (only read where the field is
known present). -/
def fieldVal (field : String) (d : Doc) : Value :=
  (assocLookup d field).getD (Value.int 0)

/-- The spec-side description of get_date_filtered_data ("yields exactly
the id/value pairs of the corpus documents whose year lies in the
bounds"): filter the corpus by the year range, in corpus order, and map
each kept entry to its id paired with its field value. -/
def specDateFiltered (c : List (Int × Doc)) (field : String) (s e : Int) :
    List (Int × Value) :=
  (c.filter fun p => datePassB s e p.2).map fun p => (p.1, fieldVal field p.2)

/-- Sample document a (spec section 8 end-to-end scenario). -/
def docA : Doc := [("id", .str "a"), ("text", .str "cat dog"), ("year", .int 2000)]

/-- Sample document b (spec section 8 end-to-end scenario). -/
def docB : Doc := [("id", .str "b"), ("text", .str "cat fish"), ("year", .int 2010)]

/-- The two-document sample corpus of the spec, keyed 1 and 2. -/
def sampleCorpus : List (Int × Doc) := [(1, docA), (2, docB)]

/-- The sample reader output handed to read_input in the C6 evaluation. -/
def sampleReaderOutput : List (String × Doc) := [("a", docA)]

/-- A sample artifact (a generator of token values) handed to tokenize. -/
def sampleArtifact : Artifact := .generator [Value.str "cat", Value.str "dog"]

/-- An InMemoryOutput with one artifact in each stage table, used to
evaluate the select operations. -/
def sampleOutputSel : InMemoryOutput :=
  { corpus := .gdict sampleCorpus
    hash_field := some "id"
    tokenized_corpora := [("tk_simple_", .list [Value.str "cat"])]
    vectorized_corpora := [("v1", .list [Value.int 7])]
    modeled_corpora := [("m1", .list [Value.int 9])] }

/-- The project state on which the select operations are evaluated. -/
def sampleProjectSel : TopikProject := TopikProject.new sampleOutputSel

/-- A project whose tokenizer pointer is set, used to evaluate
transform. -/
def sampleProjectTk : TopikProject :=
  { TopikProject.new sampleOutputSel with _tokenizer_id := some "tk_simple_" }

/-- A one-item parameter list whose value contains the two delimiter
characters. -/
def cxParamsA : List KV := [("a", "1_b=2")]

/-- A two-item parameter list that collides with `cxParamsA` under the
fingerprint encoding. -/
def cxParamsB : List KV := [("a", "1"), ("b", "2")]

/-- A delimiter-free parameter list. -/
def wParamsA : List KV := [("alpha", "1"), ("beta", "2")]

/-- The same parameters as `wParamsA` handed over in the other key
order. -/
def wParamsB : List KV := [("beta", "2"), ("alpha", "1")]

/-- Looking up the key just assigned returns the assigned value. -/
theorem assocLookup_assocSet {κ α : Type} [DecidableEq κ]
    (d : List (κ × α)) (k : κ) (v : α) :
    assocLookup (assocSet d k v) k = some v := by
  induction d with
  | nil => simp [assocSet, assocLookup]
  | cons hd tl ih =>
    obtain ⟨k₀, v₀⟩ := hd
    by_cases hk : k₀ = k
    · simp [assocSet, hk, assocLookup]
    · simp [assocSet, hk, assocLookup, ih]

/-- The string comparison is irreflexive. -/
theorem charListLt_irrefl : ∀ a : List Char, charListLt a a = false
  | [] => rfl
  | c :: t => by
    have h := lt_irrefl c
    simp [charListLt, h, charListLt_irrefl t]

/-- The string comparison is asymmetric. -/
theorem charListLt_asymm : ∀ a b : List Char,
    charListLt a b = true → charListLt b a = false
  | _, [], h => by simp [charListLt] at h
  | [], _ :: _, _ => by simp [charListLt]
  | a :: as, b :: bs, h => by
    simp only [charListLt] at h ⊢
    by_cases h1 : a < b
    · have h2 : ¬ b < a := lt_asymm h1
      simp [h1, h2]
    · by_cases h2 : b < a
      · simp [h1, h2] at h
      · simp only [h1, h2, if_false] at h ⊢
        exact charListLt_asymm as bs h

/-- The string comparison is transitive. -/
theorem charListLt_trans : ∀ a b c : List Char,
    charListLt a b = true → charListLt b c = true → charListLt a c = true
  | _, _, [], _, h2 => by simp [charListLt] at h2
  | _, [], _ :: _, h1, _ => by simp [charListLt] at h1
  | [], _ :: _, _ :: _, _, _ => by simp [charListLt]
  | a :: as, b :: bs, c :: cs, h1, h2 => by
    simp only [charListLt] at h1 h2 ⊢
    by_cases hab : a < b
    · by_cases hbc : b < c
      · simp [lt_trans hab hbc]
      · by_cases hcb : c < b
        · simp [hbc, hcb] at h2
        · have hbc2 : b = c := le_antisymm (not_lt.mp hcb) (not_lt.mp hbc)
          subst hbc2
          simp [hab]
    · by_cases hba : b < a
      · simp [hab, hba] at h1
      · have hab2 : a = b := le_antisymm (not_lt.mp hba) (not_lt.mp hab)
        subst hab2
        by_cases hbc : a < c
        · simp [hbc]
        · by_cases hcb : c < a
          · simp [hbc, hcb] at h2
          · simp only [hab, hbc, hcb, if_false] at h1 h2 ⊢
            exact charListLt_trans as bs cs h1 h2

/-- The string comparison is trichotomous. -/
theorem charListLt_trichot : ∀ a b : List Char,
    charListLt a b = true ∨ a = b ∨ charListLt b a = true
  | [], [] => Or.inr (Or.inl rfl)
  | [], _ :: _ => Or.inl (by simp [charListLt])
  | _ :: _, [] => Or.inr (Or.inr (by simp [charListLt]))
  | a :: as, b :: bs => by
    rcases lt_trichotomy a b with h | h | h
    · exact Or.inl (by simp [charListLt, h])
    · subst h
      rcases charListLt_trichot as bs with h2 | h2 | h2
      · exact Or.inl (by simp [charListLt, lt_irrefl, h2])
      · exact Or.inr (Or.inl (by rw [h2]))
      · exact Or.inr (Or.inr (by simp [charListLt, lt_irrefl, h2]))
    · exact Or.inr (Or.inr (by simp [charListLt, h]))

/-- Equal character data means equal strings. -/
theorem stringDataEq (s t : String) (h : s.data = t.data) : s = t := by
  cases s; cases t; exact congrArg String.mk h

/-- The pair comparison is asymmetric. -/
theorem pairLt_asymm (p q : KV) (h : pairLt p q = true) : pairLt q p = false := by
  simp only [pairLt, Bool.or_eq_true, Bool.and_eq_true, beq_iff_eq] at h
  rcases h with h1 | ⟨he, hv⟩
  · have hkey : charListLt q.1.data p.1.data = false := charListLt_asymm _ _ h1
    have hne : ¬ q.1.data = p.1.data := by
      intro he
      rw [he] at h1
      rw [charListLt_irrefl] at h1
      exact Bool.false_ne_true h1
    simp [pairLt, hkey, hne]
  · have hkey : charListLt q.1.data p.1.data = false := by
      rw [he, charListLt_irrefl]
    have hval : charListLt q.2.data p.2.data = false := charListLt_asymm _ _ hv
    simp [pairLt, hkey, he, hval, charListLt_irrefl]

/-- The pair comparison is transitive. -/
theorem pairLt_trans (p q r : KV) (h1 : pairLt p q = true)
    (h2 : pairLt q r = true) : pairLt p r = true := by
  simp only [pairLt, Bool.or_eq_true, Bool.and_eq_true, beq_iff_eq] at h1 h2 ⊢
  rcases h1 with hk1 | ⟨he1, hv1⟩
  · rcases h2 with hk2 | ⟨he2, hv2⟩
    · exact Or.inl (charListLt_trans _ _ _ hk1 hk2)
    · rw [he2] at hk1
      exact Or.inl hk1
  · rcases h2 with hk2 | ⟨he2, hv2⟩
    · rw [he1]
      exact Or.inl hk2
    · exact Or.inr ⟨he1.trans he2, charListLt_trans _ _ _ hv1 hv2⟩

/-- The pair comparison is trichotomous (pairs with equal components are
equal). -/
theorem pairLt_trichot (p q : KV) :
    pairLt p q = true ∨ p = q ∨ pairLt q p = true := by
  rcases charListLt_trichot p.1.data q.1.data with hk | hk | hk
  · exact Or.inl (by simp [pairLt, hk])
  · rcases charListLt_trichot p.2.data q.2.data with hv | hv | hv
    · exact Or.inl (by simp [pairLt, hk, hv])
    · refine Or.inr (Or.inl ?_)
      obtain ⟨s1, s2⟩ := p
      obtain ⟨t1, t2⟩ := q
      have e1 : s1 = t1 := stringDataEq _ _ hk
      have e2 : s2 = t2 := stringDataEq _ _ hv
      rw [e1, e2]
    · exact Or.inr (Or.inr (by simp [pairLt, hk.symm, hv]))
  · exact Or.inr (Or.inr (by simp [pairLt, hk]))

/-- Totality of the sort order. -/
theorem pairLe_total : ∀ p q : KV, pyLeR p q ∨ pyLeR q p := by
  intro p q
  rcases h : pairLt q p with hf | ht
  · exact Or.inl (by simp [pyLeR, pairLe, h])
  · have h2 : pairLt p q = false := pairLt_asymm _ _ h
    exact Or.inr (by simp [pyLeR, pairLe, h2])

/-- Transitivity of the sort order. -/
theorem pairLe_trans : ∀ p q r : KV, pyLeR p q → pyLeR q r → pyLeR p r := by
  intro p q r h1 h2
  simp only [pyLeR, pairLe, Bool.not_eq_true'] at h1 h2 ⊢
  rcases h3 : pairLt r p with hf | ht
  · rfl
  · rcases pairLt_trichot q p with hq | hq | hq
    · rw [hq] at h1; exact absurd h1 (by simp)
    · subst hq
      rw [h3] at h2; exact absurd h2 (by simp)
    · have := pairLt_trans _ _ _ h3 hq
      rw [this] at h2; exact absurd h2 (by simp)

/-- Antisymmetry of the sort order on the pairs themselves. -/
theorem pairLe_antisymm : ∀ p q : KV, pyLeR p q → pyLeR q p → p = q := by
  intro p q h1 h2
  simp only [pyLeR, pairLe, Bool.not_eq_true'] at h1 h2
  rcases pairLt_trichot p q with h | h | h
  · rw [h] at h2; exact absurd h2 (by simp)
  · exact h
  · rw [h] at h1; exact absurd h1 (by simp)

/-- Sorting is determined by the multiset of items: permuted inputs sort
to the same list. -/
theorem pySorted_eq_of_perm (l₁ l₂ : List KV) (h : List.Perm l₁ l₂) :
    pySorted l₁ = pySorted l₂ := by
  haveI : IsTotal KV pyLeR := ⟨pairLe_total⟩
  haveI : IsTrans KV pyLeR := ⟨pairLe_trans⟩
  haveI : IsAntisymm KV pyLeR := ⟨pairLe_antisymm⟩
  exact List.eq_of_perm_of_sorted
    ((List.perm_insertionSort pyLeR l₁).trans
      (h.trans (List.perm_insertionSort pyLeR l₂).symm))
    (List.sorted_insertionSort pyLeR l₁)
    (List.sorted_insertionSort pyLeR l₂)

/-- Splitting at a separator character: if neither prefix contains the
separator, equal concatenations force equal prefixes and equal
remainders. -/
theorem sep_split (c : Char) : ∀ (k₁ k₂ r₁ r₂ : List Char),
    k₁.all (fun x => !(x == c)) = true → k₂.all (fun x => !(x == c)) = true →
    k₁ ++ c :: r₁ = k₂ ++ c :: r₂ → k₁ = k₂ ∧ r₁ = r₂
  | [], [], r₁, r₂, _, _, h => ⟨rfl, by simpa using h⟩
  | [], x :: k₂, r₁, r₂, _, h2, h => by
    rw [List.all_cons, Bool.and_eq_true] at h2
    have hx : ¬ (x = c) := by
      have h3 := h2.1
      simp at h3
      exact h3
    simp only [List.nil_append, List.cons_append, List.cons.injEq] at h
    exact absurd h.1.symm hx
  | x :: k₁, [], r₁, r₂, h1, _, h => by
    rw [List.all_cons, Bool.and_eq_true] at h1
    have hx : ¬ (x = c) := by
      have h3 := h1.1
      simp at h3
      exact h3
    simp only [List.nil_append, List.cons_append, List.cons.injEq] at h
    exact absurd h.1 hx
  | x₁ :: k₁, x₂ :: k₂, r₁, r₂, h1, h2, h => by
    rw [List.all_cons, Bool.and_eq_true] at h1 h2
    simp only [List.cons_append, List.cons.injEq] at h
    have ih := sep_split c k₁ k₂ r₁ r₂ h1.2 h2.2 h.2
    exact ⟨by rw [h.1, ih.1], ih.2⟩

/-- Unfolding the encoding over the head item. -/
theorem encodeChars_cons (p : KV) (t : List KV) :
    encodeChars (p :: t) =
      p.1.data ++ '=' :: (p.2.data ++ '_' :: encodeChars t) := by
  simp [encodeChars, encPairChars]

/-- The encoding of a nonempty item list has at least the two delimiter
characters. -/
theorem encodeChars_length_ge (p : KV) (t : List KV) :
    2 ≤ (encodeChars (p :: t)).length := by
  rw [encodeChars_cons]
  simp
  omega

/-- The encoding of a nonempty item list ends in an underscore. -/
theorem encodeChars_endsUnderscore : ∀ l : List KV, l ≠ [] →
    ∃ ys, encodeChars l = ys ++ ['_']
  | [], h => absurd rfl h
  | [p], _ => ⟨p.1.data ++ '=' :: p.2.data, by rw [encodeChars_cons]; simp [encodeChars]⟩
  | p :: q :: t, _ => by
    obtain ⟨ys, hys⟩ := encodeChars_endsUnderscore (q :: t) (by simp)
    refine ⟨p.1.data ++ '=' :: (p.2.data ++ '_' :: ys), ?_⟩
    rw [encodeChars_cons, hys]
    simp

/-- A clean pair's key avoids the equals sign. -/
theorem cleanKV_key (p : KV) (h : cleanKV p = true) :
    p.1.data.all (fun x => !(x == '=')) = true := by
  rw [cleanKV, Bool.and_eq_true] at h
  rw [List.all_eq_true]
  intro x hx
  have h2 := (List.all_eq_true.mp h.1) x hx
  rw [cleanChar, Bool.and_eq_true] at h2
  exact h2.1

/-- A clean pair's value avoids the underscore. -/
theorem cleanKV_val (p : KV) (h : cleanKV p = true) :
    p.2.data.all (fun x => !(x == '_')) = true := by
  rw [cleanKV, Bool.and_eq_true] at h
  rw [List.all_eq_true]
  intro x hx
  have h2 := (List.all_eq_true.mp h.2) x hx
  rw [cleanChar, Bool.and_eq_true] at h2
  exact h2.2

/-- On clean item lists the character encoding is injective. -/
theorem encodeChars_inj : ∀ l₁ l₂ : List KV,
    (∀ p ∈ l₁, cleanKV p = true) → (∀ p ∈ l₂, cleanKV p = true) →
    encodeChars l₁ = encodeChars l₂ → l₁ = l₂
  | [], [], _, _, _ => rfl
  | [], p :: t, _, _, h => by
    have h2 := encodeChars_length_ge p t
    rw [← h] at h2
    simp [encodeChars] at h2
  | p :: t, [], _, _, h => by
    have h2 := encodeChars_length_ge p t
    rw [h] at h2
    simp [encodeChars] at h2
  | p₁ :: t₁, p₂ :: t₂, hc1, hc2, h => by
    rw [encodeChars_cons, encodeChars_cons] at h
    have hs1 := sep_split '=' _ _ _ _
      (cleanKV_key p₁ (hc1 p₁ (by simp))) (cleanKV_key p₂ (hc2 p₂ (by simp))) h
    have hs2 := sep_split '_' _ _ _ _
      (cleanKV_val p₁ (hc1 p₁ (by simp))) (cleanKV_val p₂ (hc2 p₂ (by simp))) hs1.2
    have ih := encodeChars_inj t₁ t₂
      (fun q hq => hc1 q (by simp [hq])) (fun q hq => hc2 q (by simp [hq])) hs2.2
    obtain ⟨a1, b1⟩ := p₁
    obtain ⟨a2, b2⟩ := p₂
    have e1 : a1 = a2 := stringDataEq _ _ hs1.1
    have e2 : b1 = b2 := stringDataEq _ _ hs2.1
    rw [e1, e2, ih]

/-- Permutation-invariance of the parameter string. -/
theorem paramString_of_perm (l₁ l₂ : List KV) (h : List.Perm l₁ l₂) :
    _get_parameters_string l₁ = _get_parameters_string l₂ := by
  rw [_get_parameters_string, _get_parameters_string,
    pySorted_eq_of_perm l₁ l₂ h]

/-- On clean parameter lists, equal parameter strings force equal
multisets of parameters. -/
theorem paramString_inj (l₁ l₂ : List KV)
    (hc1 : ∀ p ∈ l₁, cleanKV p = true) (hc2 : ∀ p ∈ l₂, cleanKV p = true)
    (h : _get_parameters_string l₁ = _get_parameters_string l₂) :
    List.Perm l₁ l₂ := by
  have hd : (encodeChars (pySorted l₁)).dropLast
      = (encodeChars (pySorted l₂)).dropLast := by
    have h2 := congrArg String.data h
    simpa [_get_parameters_string] using h2
  have hperm1 : List.Perm (pySorted l₁) l₁ := List.perm_insertionSort pyLeR l₁
  have hperm2 : List.Perm (pySorted l₂) l₂ := List.perm_insertionSort pyLeR l₂
  have hcs1 : ∀ p ∈ pySorted l₁, cleanKV p = true :=
    fun p hp => hc1 p (hperm1.mem_iff.mp hp)
  have hcs2 : ∀ p ∈ pySorted l₂, cleanKV p = true :=
    fun p hp => hc2 p (hperm2.mem_iff.mp hp)
  rcases eq_or_ne (pySorted l₁) [] with h1 | h1
  · rcases eq_or_ne (pySorted l₂) [] with h2 | h2
    · have e1 : l₁ = [] := by
        have hp := hperm1
        rw [h1] at hp
        exact (hp.symm).eq_nil
      have e2 : l₂ = [] := by
        have hp := hperm2
        rw [h2] at hp
        exact (hp.symm).eq_nil
      rw [e1, e2]
    · exfalso
      obtain ⟨q, t, hq⟩ := List.exists_cons_of_ne_nil h2
      have hlen := encodeChars_length_ge q t
      rw [← hq] at hlen
      rw [h1] at hd
      have hlen2 : (encodeChars (pySorted l₂)).dropLast.length = 0 := by
        rw [← hd]
        rfl
      rw [List.length_dropLast] at hlen2
      omega
  · rcases eq_or_ne (pySorted l₂) [] with h2 | h2
    · exfalso
      obtain ⟨q, t, hq⟩ := List.exists_cons_of_ne_nil h1
      have hlen := encodeChars_length_ge q t
      rw [← hq] at hlen
      rw [h2] at hd
      have hlen2 : (encodeChars (pySorted l₁)).dropLast.length = 0 := by
        rw [hd]
        rfl
      rw [List.length_dropLast] at hlen2
      omega
    · obtain ⟨ys₁, hy₁⟩ := encodeChars_endsUnderscore (pySorted l₁) h1
      obtain ⟨ys₂, hy₂⟩ := encodeChars_endsUnderscore (pySorted l₂) h2
      rw [hy₁, hy₂, List.dropLast_concat, List.dropLast_concat] at hd
      have he : encodeChars (pySorted l₁) = encodeChars (pySorted l₂) := by
        rw [hy₁, hy₂, hd]
      have hsEq := encodeChars_inj _ _ hcs1 hcs2 he
      exact hperm1.symm.trans (hsEq ▸ hperm2)

/-- The date-range filter renders to a nonempty string. -/
theorem render_dateRange_ne (s : Int) (ff : String) (e : Int) :
    (PyFilter.render (.dateRange s ff e) == "") = false := by
  rw [beq_eq_false_iff_ne]
  intro h
  have hd := congrArg String.data h
  simp only [PyFilter.render, String.data_append] at hd
  rcases List.append_eq_nil.mp hd with ⟨hd2, -⟩
  rcases List.append_eq_nil.mp hd2 with ⟨hd3, hq⟩
  exact absurd hq (by decide)

/-- The symbolic truthiness test agrees with Python truthiness of the
rendered filter string (`if not filter:` — only the empty string is
falsy). -/
theorem PyFilter_truthy_faithful (f : PyFilter) :
    f.truthy = !(f.render == "") := by
  cases f with
  | empty => rfl
  | dateRange s ff e =>
    rw [PyFilter.truthy, render_dateRange_ne]
    rfl

/-- Running the all-pass branch of the generator yields every corpus
entry's id/field pair, in corpus order. -/
theorem getFilteredList_all_eq (field : String) :
    ∀ c : List (Int × Doc),
    (∀ p ∈ c, (assocLookup p.2 field).isSome = true) →
    getFilteredList field (fun _ => .ok true) c
      = .ok (c.map fun p => (p.1, fieldVal field p.2))
  | [], _ => rfl
  | (i, d) :: rest, h => by
    obtain ⟨v, hv⟩ := Option.isSome_iff_exists.mp (h (i, d) (by simp))
    have ih := getFilteredList_all_eq field rest (fun p hp => h p (by simp [hp]))
    simp [getFilteredList, hv, ih, fieldVal]

/-- Running the date-range branch of the generator computes exactly the
spec-side filter-and-project of the corpus. -/
theorem getFilteredList_date_eq (field : String) (s e : Int) :
    ∀ c : List (Int × Doc),
    (∀ p ∈ c, isIntYear p.2 = true) →
    (∀ p ∈ c, (assocLookup p.2 field).isSome = true) →
    getFilteredList field (datePred s "year" e) c
      = .ok (specDateFiltered c field s e)
  | [], _, _ => rfl
  | (i, d) :: rest, hY, hF => by
    have hYd := hY (i, d) (by simp)
    have ih := getFilteredList_date_eq field s e rest
      (fun p hp => hY p (by simp [hp])) (fun p hp => hF p (by simp [hp]))
    rw [isIntYear] at hYd
    cases hy : assocLookup d "year" with
    | none =>
      rw [hy] at hYd
      exact absurd hYd (by simp)
    | some val =>
      cases val with
      | str sv =>
        rw [hy] at hYd
        exact absurd hYd (by simp)
      | int n =>
        obtain ⟨v, hv⟩ := Option.isSome_iff_exists.mp (hF (i, d) (by simp))
        have hyear : yearOf d = n := by simp [yearOf, hy]
        by_cases hb : s ≤ n ∧ n ≤ e
        · simp [getFilteredList, datePred, hy, pyInt, hb, hv, ih,
            specDateFiltered, datePassB, hyear, fieldVal, List.filter_cons]
        · simp [getFilteredList, datePred, hy, pyInt, hb, ih,
            specDateFiltered, datePassB, hyear, List.filter_cons]

/-- get_date_filtered_data on a proper corpus computes the spec-side
filter-and-project. -/
theorem get_date_filtered_data_eq (c : List (Int × Doc)) (field : String)
    (s e : Int)
    (hY : ∀ p ∈ c, isIntYear p.2 = true)
    (hF : ∀ p ∈ c, (assocLookup p.2 field).isSome = true) :
    (mkMemOutput c).get_date_filtered_data field s e
      = .ok (specDateFiltered c field s e) := by
  have h0 : (mkMemOutput c).get_date_filtered_data field s e
      = getFilteredList field (datePred s "year" e) c := rfl
  rw [h0]
  exact getFilteredList_date_eq field s e c hY hF

/-- str.format leaves a brace-free template unchanged. -/
theorem fmtAux_id (ins : List Char) : ∀ l : List Char,
    (l.all fun c => !(c == '\x7b')) = true → fmtAux ins l = l
  | [], _ => by simp [fmtAux]
  | [_], _ => by simp [fmtAux]
  | c₁ :: c₂ :: rest, h => by
    rw [List.all_cons, Bool.and_eq_true] at h
    have h1 : ¬ (c₁ = '\x7b') := by
      have h2 := h.1
      simp at h2
      exact h2
    simp only [fmtAux]
    rw [if_neg (by intro hh; exact h1 hh.1)]
    rw [fmtAux_id ins (c₂ :: rest) h.2]

/-- String-level corollary: formatting a brace-free template returns the
template itself, whatever is inserted. -/
theorem pyFormat_noBraces (t ins : String) (h : noBraces t = true) :
    pyFormat t ins = t := by
  have h2 : (t.data.all fun c => !(c == '\x7b')) = true := by
    rw [noBraces] at h
    rw [List.all_eq_true] at h ⊢
    intro x hx
    have h3 := h x hx
    rw [Bool.and_eq_true] at h3
    exact h3.1
  rw [pyFormat, fmtAux_id ins.data t.data h2]

/-- C1: the claim states that every VectorizerRegistry instance shares one
process-wide table, so that after register("tfidf", f) through the
module-level instance, `vectorize`, which constructs a fresh
VectorizerRegistry(), finds and invokes f.  Evaluating the code refutes
this: registration does put f into the table of the instance it was given,
yet `vectorize` raises KeyError("tfidf") because the fresh instance's item
table is empty — the Borg assignment shares only the attribute
namespace, never the dict items of a dict subclass.  The code here
contradicts its own docstring ("global registry for each step's possible
methods"). -/
theorem vectorizer_registry_not_shared :
    assocLookup (_base_register_decorator registered_vectorizers "tfidf"
      sampleVectorizer).items "tfidf" = some sampleVectorizer
    ∧ vectorize 5 "tfidf" = .error (.keyError "tfidf") :=
  ⟨rfl, rfl⟩

/-- C2: the claim states that each select operation either succeeds (after
which the corresponding data property resolves the artifact stored under
the id) or fails with the not-found error leaving the selection unchanged.
Evaluating the code on a store that HOLDS artifacts under the requested
ids refutes this: all three select operations raise AttributeError
(`tokenizer_ids` is not defined on TopikProject; `vectorized_data` and
`model_data` are not attributes of the output), never succeeding and never
raising the not-found error, and the data properties themselves raise
AttributeError rather than resolving anything.  (Moreover, the success
branches in the source assign `selected_*` attributes, while the
properties read the `_tokenizer_id`/`_vectorizer_id`/`_model_id` pointers,
so even a reachable success could not make the property reflect the id.) -/
theorem select_operations_raise_attribute_errors :
    sampleProjectSel.select_tokenized_data "tk_simple_"
      = .error (.attributeError "TopikProject" "tokenizer_ids")
    ∧ sampleProjectSel.select_vectorized_data "v1"
      = .error (.attributeError "InMemoryOutput" "vectorized_data")
    ∧ sampleProjectSel.select_model_data "m1"
      = .error (.attributeError "InMemoryOutput" "model_data")
    ∧ sampleProjectSel.tokenized_data
      = .error (.attributeError "InMemoryOutput" "tokenized_data")
    ∧ sampleProjectSel.vectorized_data
      = .error (.attributeError "InMemoryOutput" "vectorized_data")
    ∧ sampleProjectSel.model_output
      = .error (.attributeError "InMemoryOutput" "model_data") :=
  ⟨rfl, rfl, rfl, rfl, rfl, rfl⟩

/-- C3 counterexample: the claim quantifies over every one-shot lazy
sequence, but GreedyDict only materializes values of generator type.  A
one-shot iterator that is not a generator (here a list iterator holding
one element) is stored unmaterialized, and reading the stored object
twice yields the values once and then an empty second read — refuting
"a second read is never empty". -/
theorem greedydict_setitem_counterexample :
    PySeq.isOneShot (PySeq.listIterator [0] : PySeq Nat) = true
    ∧ PySeq.isGeneratorType (PySeq.listIterator [0] : PySeq Nat) = false
    ∧ assocLookup
        (GreedyDict.setitem [] "fp" (PySeq.listIterator [0] : PySeq Nat)) "fp"
      = some (PySeq.listIterator [0])
    ∧ PySeq.readTwice (PySeq.listIterator [0] : PySeq Nat) = ([0], []) :=
  ⟨rfl, rfl, rfl, rfl⟩

/-- C3 (amended): every value of generator type stored through GreedyDict
item assignment is fully materialized into a list before the call
returns, and the stored artifact then yields the same values, in the same
order, on both of two subsequent reads. -/
theorem greedydict_materializes_generators (d : List (String × PySeq Nat))
    (k : String) (xs : List Nat) :
    assocLookup (GreedyDict.setitem d k (PySeq.generator xs)) k
      = some (PySeq.list xs)
    ∧ PySeq.readTwice (PySeq.list xs) = (xs, xs) :=
  ⟨assocLookup_assocSet d k (PySeq.list xs), rfl⟩

/-- C4 counterexample: two different parameter mappings — one parameter
whose value contains the delimiter characters versus two parameters — 
produce the identical fingerprint string, refuting "for every two
parameter mappings that differ in any key or any value, the resulting
fingerprint strings differ". -/
theorem get_parameters_string_collision :
    _get_parameters_string cxParamsA = _get_parameters_string cxParamsB
    ∧ decide (List.Perm cxParamsA cxParamsB) = false := by
  exact ⟨by decide, by decide⟩

/-- C4 (amended): computing the fingerprint twice from the same mapping
yields the identical string regardless of key insertion order (for all
parameter lists); and for parameter lists whose keys and values contain
neither the equals sign nor the underscore (the two delimiter characters
of the encoding), two lists that are not permutations of each other yield
different strings. -/
theorem get_parameters_string_correct (l₁ l₂ : List KV) :
    (List.Perm l₁ l₂ → _get_parameters_string l₁ = _get_parameters_string l₂)
    ∧ (l₁.all cleanKV = true → l₂.all cleanKV = true →
        _get_parameters_string l₁ = _get_parameters_string l₂ →
        List.Perm l₁ l₂) := by
  constructor
  · exact paramString_of_perm l₁ l₂
  · intro h1 h2 h
    exact paramString_inj l₁ l₂ (List.all_eq_true.mp h1)
      (List.all_eq_true.mp h2) h

/-- C4 witness: at the concrete delimiter-free parameter lists, the two
key orders yield the identical fingerprint, and equal fingerprints give
back the permutation. -/
theorem get_parameters_string_correct_witness :
    _get_parameters_string wParamsA = _get_parameters_string wParamsB
    ∧ List.Perm wParamsA wParamsB :=
  ⟨(get_parameters_string_correct wParamsA wParamsB).1 (by decide),
   (get_parameters_string_correct wParamsA wParamsB).2 (by decide) (by decide)
     (by decide)⟩

/-- C5: over a corpus GreedyDict with distinct ids whose documents carry
an integer year field and the requested field, get_date_filtered_data
yields exactly the id/field-value pairs of the documents whose year lies
between the bounds — the in-order filter-and-project of the corpus — 
with no duplicate ids and, under any permutation of corpus insertion
order, a permutation of the same pairs. -/
theorem get_date_filtered_data_correct (c : List (Int × Doc)) (field : String)
    (s e : Int)
    (hY : (c.all fun p => isIntYear p.2) = true)
    (hF : (c.all fun p => (assocLookup p.2 field).isSome) = true)
    (hK : (c.map Prod.fst).Nodup) :
    (mkMemOutput c).get_date_filtered_data field s e
      = .ok (specDateFiltered c field s e)
    ∧ (∀ i v, (i, v) ∈ specDateFiltered c field s e ↔
        ∃ d, (i, d) ∈ c ∧ assocLookup d field = some v
          ∧ isIntYear d = true ∧ s ≤ yearOf d ∧ yearOf d ≤ e)
    ∧ ((specDateFiltered c field s e).map Prod.fst).Nodup
    ∧ ∀ c2, List.Perm c c2 →
        (mkMemOutput c2).get_date_filtered_data field s e
          = .ok (specDateFiltered c2 field s e)
        ∧ List.Perm (specDateFiltered c field s e)
            (specDateFiltered c2 field s e) := by
  have hY2 := List.all_eq_true.mp hY
  have hF2 := List.all_eq_true.mp hF
  refine ⟨get_date_filtered_data_eq c field s e hY2 hF2, ?_, ?_, ?_⟩
  · intro i v
    constructor
    · intro hm
      rw [specDateFiltered, List.mem_map] at hm
      obtain ⟨p, hp, hpe⟩ := hm
      rw [List.mem_filter] at hp
      obtain ⟨hpc, hpass⟩ := hp
      rw [datePassB, decide_eq_true_eq] at hpass
      obtain ⟨w, hw⟩ := Option.isSome_iff_exists.mp (hF2 p hpc)
      rw [Prod.mk.injEq] at hpe
      obtain ⟨hi, hv⟩ := hpe
      refine ⟨p.2, ?_, ?_, hY2 p hpc, hpass.1, hpass.2⟩
      · rw [← hi]
        simpa using hpc
      · rw [fieldVal, hw] at hv
        simp at hv
        rw [hw, hv]
    · intro hm
      obtain ⟨d, hdc, hdf, hdY, h1, h2⟩ := hm
      rw [specDateFiltered, List.mem_map]
      refine ⟨(i, d), ?_, ?_⟩
      · rw [List.mem_filter]
        refine ⟨hdc, ?_⟩
        rw [datePassB, decide_eq_true_eq]
        exact ⟨h1, h2⟩
      · simp [fieldVal, hdf]
  · have h1 : (specDateFiltered c field s e).map Prod.fst
        = (c.filter fun p => datePassB s e p.2).map Prod.fst := by
      simp [specDateFiltered, List.map_map, Function.comp]
    rw [h1]
    exact hK.sublist ((List.filter_sublist c).map Prod.fst)
  · intro c2 hperm
    have hY2c : ∀ p ∈ c2, isIntYear p.2 = true :=
      fun p hp => hY2 p (hperm.mem_iff.mpr hp)
    have hF2c : ∀ p ∈ c2, (assocLookup p.2 field).isSome = true :=
      fun p hp => hF2 p (hperm.mem_iff.mpr hp)
    refine ⟨get_date_filtered_data_eq c2 field s e hY2c hF2c, ?_⟩
    rw [specDateFiltered, specDateFiltered]
    exact (hperm.filter _).map _

/-- C5 witness: on the spec's two-document sample corpus, filtering years
2000 through 2005 on the text field yields exactly the pair for document
a. -/
theorem get_date_filtered_data_correct_witness :
    (mkMemOutput sampleCorpus).get_date_filtered_data "text" 2000 2005
      = .ok [(1, Value.str "cat dog")] :=
  (get_date_filtered_data_correct sampleCorpus "text" 2000 2005
    (by decide) (by decide) (by decide)).1

/-- C6: the claim states that read_input stores the reader's documents
through import_from_iterable, so that afterwards the corpus is a mapping
keyed by the hash of each document's hash field.  Evaluating the code
refutes this: read_input rebinds the corpus attribute to the raw reader
output (no mapping, no hashing), while a direct call to
import_from_iterable on the same document — the path the claim
describes — is what would have produced the hash-keyed mapping. -/
theorem read_input_bypasses_import :
    ((TopikProject.new InMemoryOutput.new).read_input
        sampleReaderOutput).output.corpus
      = CorpusVal.rawReader sampleReaderOutput
    ∧ (((TopikProject.new InMemoryOutput.new).read_input
        sampleReaderOutput).output.corpus).isMapping = false
    ∧ InMemoryOutput.new.import_from_iterable [ImportItem.dictItem docA]
        (some "id")
      = .ok { InMemoryOutput.new with
              corpus := .gdict [(pyHash (Value.str "a"), docA)]
              hash_field := some "id" } :=
  ⟨rfl, rfl, rfl⟩

/-- C7: the claim states that tokenize stores the token lists in the
tokenized table under the fingerprint "tk_" + method + "_" + params and
updates the tokenizer selection pointer.  Evaluating the code refutes the
storage part: the fingerprint is indeed "tk_simple_" for method simple
with no parameters, but the store step writes through the attribute
token_data, which the output does not define, so tokenize raises
AttributeError with nothing stored and the pointer untouched. -/
theorem tokenize_raises_attribute_error :
    tokenizeFingerprint "simple" "" = "tk_simple_"
    ∧ TopikProject.tokenize (TopikProject.new InMemoryOutput.new) "simple" ""
        sampleArtifact
      = .error (.attributeError "InMemoryOutput" "token_data") :=
  ⟨by decide, rfl⟩

/-- C8: the claim states that transform stores its result under the
chained fingerprint prior + "_xform_" + method + "_" + params and moves
the tokenizer pointer there.  The join expression in the source does
produce exactly that chained string, but evaluating transform refutes
the rest: the join reads the attribute tokenizer_id, which TopikProject
does not define (the pointer field is _tokenizer_id), so transform raises
AttributeError with nothing stored and no pointer moved — even on a
project whose tokenizer pointer is set. -/
theorem transform_raises_attribute_error :
    transformFingerprintJoin "tk_simple_" "lowercase" ""
      = "tk_simple_" ++ "_xform_" ++ "lowercase" ++ "_" ++ ""
    ∧ TopikProject.transform sampleProjectTk "lowercase" "" sampleArtifact
      = .error (.attributeError "TopikProject" "tokenizer_id") :=
  ⟨by decide, rfl⟩

/-- C9 counterexample: the claim states that filter evaluation never
executes caller-supplied text as code.  Evaluating the eval-call trace of
get_filtered_data on the caller-supplied filter string "True" over a
one-document corpus refutes this: that caller string itself (nonempty,
brace-free, so formatted verbatim) is handed to dynamic evaluation. -/
theorem eval_receives_caller_string :
    get_filtered_data_eval_calls "True" [(1, docA)] = ["True"] := by
  rw [get_filtered_data_eval_calls, if_neg (by decide)]
  simp [pyFormat_noBraces "True" (pyReprEntry docA) (by decide)]

/-- C9 (amended): get_filtered_data dynamically evaluates every nonempty
caller-supplied filter string: the string, formatted with each corpus
entry, is passed to eval once per entry — in particular a brace-free
caller string is evaluated verbatim, once per document — and only the
empty (falsy) filter avoids dynamic evaluation. -/
theorem eval_calls_on_caller_strings (filter : String) (c : List (Int × Doc))
    (hne : ¬ (filter = "")) (hnb : noBraces filter = true) :
    get_filtered_data_eval_calls filter c = c.map (fun _ => filter)
    ∧ (get_filtered_data_eval_calls filter c).length = c.length := by
  have h1 : get_filtered_data_eval_calls filter c
      = c.map fun p => pyFormat filter (pyReprEntry p.2) := by
    rw [get_filtered_data_eval_calls, if_neg hne]
  constructor
  · rw [h1]
    exact List.map_congr_left fun p _ => pyFormat_noBraces filter _ hnb
  · rw [h1, List.length_map]

/-- C9 witness: the amended theorem applied at the caller string "True"
over a one-document corpus — the string is evaluated verbatim once. -/
theorem eval_calls_on_caller_strings_witness :
    get_filtered_data_eval_calls "True" [(2, docB)] = ["True"] := by
  have h := (eval_calls_on_caller_strings "True" [(2, docB)]
    (by decide) (by decide)).1
  simpa using h

/-- C10: calling get_filtered_data with the empty filter string (its
default) behaves as no filtering at all: it yields the id and
field value of every corpus entry, in corpus order, rejecting nothing
and raising nothing; the empty filter is exactly the falsy filter
string. -/
theorem get_filtered_data_empty_yields_all (c : List (Int × Doc))
    (field : String)
    (hF : (c.all fun p => (assocLookup p.2 field).isSome) = true) :
    PyFilter.empty.render = ""
    ∧ (mkMemOutput c).get_filtered_data field PyFilter.empty
      = .ok (c.map fun p => (p.1, fieldVal field p.2)) := by
  refine ⟨rfl, ?_⟩
  have h0 : (mkMemOutput c).get_filtered_data field PyFilter.empty
      = getFilteredList field (fun _ => .ok true) c := rfl
  rw [h0]
  exact getFilteredList_all_eq field c (List.all_eq_true.mp hF)

/-- C10 witness: on the two-document sample corpus, the empty filter
yields both documents' text values, in order. -/
theorem get_filtered_data_empty_yields_all_witness :
    (mkMemOutput sampleCorpus).get_filtered_data "text" PyFilter.empty
      = .ok [(1, Value.str "cat dog"), (2, Value.str "cat fish")] :=
  (get_filtered_data_empty_yields_all sampleCorpus "text" (by decide)).2
